import Mathlib

/-!
Verification of the DeadNetGuard channel-reputation backend.

The backend (Express + Prisma) is modelled as a pure state machine: the
relational store becomes an explicit `DB` record, each route handler becomes a
function `DB → ... → Result × DB`, and Prisma's automatic `updatedAt` refresh
is made explicit by threading a `now : Nat` timestamp into every mutator.
Channel ids (cuids in the store) are modelled as naturals drawn from a
`nextId` counter.
-/

namespace DeadNetGuard

/-- A `Channel` row: the moderation subject keyed by its YouTube id. -/
structure Channel where
  id : Nat
  youtubeId : String
  name : String
  reportCount : Nat
  score : Int
  isBanned : Bool
  updatedAt : Nat
deriving Repr, DecidableEq

/-- A `Vote` row: one visitor's ±1 opinion on a channel; the store enforces a
unique compound key `(channelId, visitorId)`. -/
structure Vote where
  channelId : Nat
  visitorId : String
  value : Int
deriving Repr, DecidableEq

/-- A `Report` row: an immutable flag event referencing a channel. -/
structure Report where
  channelId : Nat
  userId : Option String
  reason : Option String
  evidence : Option String
deriving Repr, DecidableEq

/-- An `Admin` row: username plus stored password hash. -/
structure Admin where
  username : String
  password : String
deriving Repr, DecidableEq

/-- An `AdminSession` row: bearer token, owning admin, expiry instant. -/
structure Session where
  token : String
  username : String
  expiresAt : Nat
deriving Repr, DecidableEq

/-- The whole relational store. -/
structure DB where
  channels : List Channel
  votes : List Vote
  reports : List Report
  admins : List Admin
  sessions : List Session
  nextId : Nat
deriving Repr, DecidableEq

/-- The store with no rows at all. -/
def emptyDB : DB := ⟨[], [], [], [], [], 0⟩

/-- `prisma.channel.findUnique({ where: { id } })`. -/
def findChannelById (db : DB) (cid : Nat) : Option Channel :=
  db.channels.find? (fun c => c.id == cid)

/-- `prisma.channel.findUnique({ where: { youtubeId } })`. -/
def findChannelByYoutubeId (db : DB) (yid : String) : Option Channel :=
  db.channels.find? (fun c => c.youtubeId == yid)

/-- `prisma.channel.update({ where: { id } })`: rewrite the row with that id. -/
def updateChannelById (db : DB) (cid : Nat) (f : Channel → Channel) : DB :=
  { db with channels := db.channels.map (fun c => if c.id == cid then f c else c) }

/-- `prisma.vote.findUnique({ where: { channelId_visitorId } })`. -/
def findVote (db : DB) (cid : Nat) (vid : String) : Option Vote :=
  db.votes.find? (fun v => v.channelId == cid && v.visitorId == vid)

/-- `prisma.vote.update` on the row found for `(channelId, visitorId)`. -/
def updateVoteValue (db : DB) (cid : Nat) (vid : String) (value : Int) : DB :=
  { db with votes := db.votes.map fun v =>
      if v.channelId == cid && v.visitorId == vid then { v with value := value } else v }

/-- `BAN_THRESHOLD_REPORTS` in `routes/banlist.ts`. -/
def BAN_THRESHOLD_REPORTS : Nat := 5

/-- `BAN_THRESHOLD_SCORE` in `routes/banlist.ts`. -/
def BAN_THRESHOLD_SCORE : Int := 3

/-- `checkAutoBan` in `routes/banlist.ts`: re-read the channel; if
`reportCount >= 5 && score >= 3`, set `isBanned := true` (the update also
refreshes `updatedAt`); otherwise leave the store untouched. -/
def checkAutoBan (db : DB) (now : Nat) (cid : Nat) : DB :=
  match findChannelById db cid with
  | none => db
  | some ch =>
    if BAN_THRESHOLD_REPORTS ≤ ch.reportCount ∧ BAN_THRESHOLD_SCORE ≤ ch.score then
      updateChannelById db cid (fun c => { c with isBanned := true, updatedAt := now })
    else db

/-- Channel state as serialized in the `POST /api/report` response. -/
structure ChannelResp where
  youtubeId : String
  name : String
  reportCount : Nat
  score : Int
  isBanned : Bool
deriving Repr, DecidableEq

/-- Shared tail of `POST /api/report` in `routes/report.ts`: insert the
`Report` row, run `checkAutoBan`, then re-read (`updatedChannel`) and build
the response from the re-read row.  The source dereferences `updatedChannel!`
with a non-null assertion; the impossible `null` branch is modelled as
`none`. -/
def reportTail (db : DB) (now : Nat) (cid : Nat)
    (reason evidence visitorId : Option String) : Option ChannelResp × DB :=
  let db1 : DB := { db with reports := db.reports ++ [⟨cid, visitorId, reason, evidence⟩] }
  let db2 := checkAutoBan db1 now cid
  match findChannelById db2 cid with
  | some u => (some ⟨u.youtubeId, u.name, u.reportCount, u.score, u.isBanned⟩, db2)
  | none => (none, db2)

/-- `POST /api/report` in `routes/report.ts` (body after schema validation):
find the channel by `youtubeId`; if present, increment `reportCount` and
`score` and refresh `name`; if absent, create it with counts 1 and
`isBanned = false`; then insert the `Report` row, run `checkAutoBan`, and
respond with the re-read channel. -/
def submitReport (db : DB) (now : Nat) (youtubeId channelName : String)
    (reason evidence visitorId : Option String) : Option ChannelResp × DB :=
  match findChannelByYoutubeId db youtubeId with
  | some ch =>
    let db1 := updateChannelById db ch.id (fun c =>
      { c with reportCount := c.reportCount + 1, score := c.score + 1,
               name := channelName, updatedAt := now })
    reportTail db1 now ch.id reason evidence visitorId
  | none =>
    let newCh : Channel := ⟨db.nextId, youtubeId, channelName, 1, 1, false, now⟩
    let db1 : DB := { db with channels := db.channels ++ [newCh], nextId := db.nextId + 1 }
    reportTail db1 now newCh.id reason evidence visitorId

/-- Outcome of `POST /api/vote` in `routes/vote.ts`.  `ok` carries the
response fields `{ id, score, isBanned }` built from `updatedChannel`, the
row returned by the score update. -/
inductive VoteOutcome where
  | validationError
  | notFound
  | duplicateVote
  | serverError
  | ok (id : Nat) (score : Int) (isBanned : Bool)
deriving Repr, DecidableEq

/-- Tail of `POST /api/vote`: apply `scoreDelta` to the channel's score (the
update returns the updated row, captured as `updatedChannel`), run
`checkAutoBan`, and respond from `updatedChannel` — note the response is
built from the row as it stood BEFORE `checkAutoBan` ran. -/
def voteTail (db : DB) (now : Nat) (cid : Nat) (scoreDelta : Int) : VoteOutcome × DB :=
  let db1 := updateChannelById db cid (fun c =>
    { c with score := c.score + scoreDelta, updatedAt := now })
  match findChannelById db1 cid with
  | some u => (.ok u.id u.score u.isBanned, checkAutoBan db1 now cid)
  | none => (.serverError, db1)

/-- `POST /api/vote` in `routes/vote.ts`: validate `value ∈ {-1, 1}`; 404 if
the channel does not exist; a repeat vote with the same value is rejected with
no mutation; a vote change updates the row in place with `scoreDelta =
value * 2`; a first vote inserts a row with `scoreDelta = value`; then the
score update, `checkAutoBan`, and the response. -/
def castVote (db : DB) (now : Nat) (channelId : Nat) (visitorId : String)
    (value : Int) : VoteOutcome × DB :=
  if value = 1 ∨ value = -1 then
    match findChannelById db channelId with
    | none => (.notFound, db)
    | some _ =>
      match findVote db channelId visitorId with
      | some existingVote =>
        if existingVote.value = value then (.duplicateVote, db)
        else voteTail (updateVoteValue db channelId visitorId value) now channelId (value * 2)
      | none =>
        voteTail { db with votes := db.votes ++ [⟨channelId, visitorId, value⟩] }
          now channelId value
  else (.validationError, db)

/-- Response of `GET /api/vote/:channelId/:visitorId`. -/
structure GetVoteResp where
  voted : Bool
  value : Int
deriving Repr, DecidableEq

/-- `GET /api/vote/:channelId/:visitorId` in `routes/vote.ts`: look the vote
up and answer `{ voted: !!vote, value: vote?.value || 0 }` (the JavaScript
`||` maps a stored 0 to 0); the handler performs no writes. -/
def getVote (db : DB) (channelId : Nat) (visitorId : String) : GetVoteResp × DB :=
  match findVote db channelId visitorId with
  | some v => (⟨true, if v.value = 0 then 0 else v.value⟩, db)
  | none => (⟨false, 0⟩, db)

/-- Response of `GET /api/banlist`. -/
structure BanlistResp where
  version : Nat
  count : Nat
  channels : List (String × String)
deriving Repr, DecidableEq

/-- `GET /api/banlist` in `routes/banlist.ts`: select the banned channels and
answer `{ version: Date.now(), count, channels }` — the version field is the
current wall-clock time, not a function of the rows. -/
def listBanned (db : DB) (now : Nat) : BanlistResp :=
  let chans := db.channels.filter (fun c => c.isBanned)
  ⟨now, chans.length, chans.map (fun c => (c.youtubeId, c.name))⟩

/-- `GET /api/banlist/version` in `routes/banlist.ts`: `findFirst` over the
banned channels ordered by `updatedAt` descending — i.e. the maximum
`updatedAt` among banned channels — with `|| 0` turning the empty case into
0. -/
def banlistVersion (db : DB) : Nat :=
  ((db.channels.filter (fun c => c.isBanned)).map (fun c => c.updatedAt)).foldr max 0

/-- Model of `bcrypt.hash`: an opaque injective tagging of the password. -/
def hashPassword (p : String) : String := "bcrypt2b12" ++ p

/-- Model of `bcrypt.compare`: true exactly when the hash came from the
password. -/
def verifyPassword (p h : String) : Bool := hashPassword p == h

/-- Outcome of the `requireAdmin` middleware in `routes/admin.ts`. -/
inductive VerifyOutcome where
  | unauthenticated
  | ok (username : String)
deriving Repr, DecidableEq

/-- `requireAdmin` in `routes/admin.ts`, for a request that carries a token:
look the session up by token; missing token row ⇒ 401; expired row ⇒ delete
that row and 401; otherwise the request proceeds as the session's admin. -/
def verifySession (db : DB) (now : Nat) (token : String) : VerifyOutcome × DB :=
  match db.sessions.find? (fun s => s.token == token) with
  | none => (.unauthenticated, db)
  | some s =>
    if s.expiresAt < now then
      (.unauthenticated, { db with sessions := db.sessions.eraseP (fun x => x.token == token) })
    else (.ok s.username, db)

/-- Outcome of `POST /api/admin/change-password`. -/
inductive CPOutcome where
  | unauthenticated
  | adminNotFound
  | invalidCredentials
  | ok
deriving Repr, DecidableEq

/-- `POST /api/admin/change-password` in `routes/admin.ts`: authenticate the
token via `requireAdmin`; re-verify `currentPassword` against the stored
hash; store the new hash; then `deleteMany` every session of that admin. -/
def changePassword (db : DB) (now : Nat) (token currentPassword newPassword : String) :
    CPOutcome × DB :=
  match verifySession db now token with
  | (.unauthenticated, db1) => (.unauthenticated, db1)
  | (.ok username, db1) =>
    match db1.admins.find? (fun a => a.username == username) with
    | none => (.adminNotFound, db1)
    | some admin =>
      if verifyPassword currentPassword admin.password then
        let db2 : DB := { db1 with admins := db1.admins.map (fun a =>
          if a.username == username then { a with password := hashPassword newPassword } else a) }
        (.ok, { db2 with sessions := db2.sessions.filter (fun s => !(s.username == username)) })
      else (.invalidCredentials, db1)

/-- One request on the automatic (unauthenticated) path: a report submission
or a vote, each carrying the wall-clock instant at which it is served. -/
inductive Op where
  | report (now : Nat) (youtubeId channelName : String)
      (reason evidence visitorId : Option String)
  | vote (now : Nat) (channelId : Nat) (visitorId : String) (value : Int)
deriving Repr, DecidableEq

/-- The store mutation performed by one automatic-path request. -/
def applyOp (db : DB) : Op → DB
  | .report now yid nm r e v => (submitReport db now yid nm r e v).2
  | .vote now cid vid value => (castVote db now cid vid value).2

/-- Serve a sequence of automatic-path requests. -/
def runOps (db : DB) (ops : List Op) : DB := ops.foldl applyOp db

/-- Serve a sequence of reports for one `youtubeId`; each list entry is the
wall-clock instant and the observed channel name of one report. -/
def runReports (db : DB) (yid : String) (l : List (Nat × String)) : DB :=
  l.foldl (fun d p => (submitReport d p.1 yid p.2 none none none).2) db

/-! ## Basic lemmas about row lookup and row update -/

lemma id_of_findChannelById {db : DB} {cid : Nat} {ch : Channel}
    (h : findChannelById db cid = some ch) : ch.id = cid := by
  have := List.find?_some h
  simpa using this

lemma keys_of_findVote {db : DB} {cid : Nat} {vid : String} {v : Vote}
    (h : findVote db cid vid = some v) : v.channelId = cid ∧ v.visitorId = vid := by
  have := List.find?_some h
  simpa using this

lemma findChannelById_updateChannelById (db : DB) (cid' : Nat) (f : Channel → Channel)
    (hf : ∀ c, (f c).id = c.id) (cid : Nat) :
    findChannelById (updateChannelById db cid' f) cid =
      (findChannelById db cid).map (fun c => if c.id == cid' then f c else c) := by
  have hp : ((fun c : Channel => c.id == cid) ∘ (fun c => if c.id == cid' then f c else c)) =
      fun c : Channel => c.id == cid := by
    funext c
    by_cases hc : c.id == cid' <;> simp [Function.comp, hc, hf]
  unfold findChannelById updateChannelById
  rw [List.find?_map, hp]

lemma findVote_updateVoteValue (db : DB) (cid' : Nat) (vid' : String) (value : Int)
    (cid : Nat) (vid : String) :
    findVote (updateVoteValue db cid' vid' value) cid vid =
      (findVote db cid vid).map
        (fun v => if v.channelId == cid' && v.visitorId == vid' then
          { v with value := value } else v) := by
  have hp : ((fun v : Vote => v.channelId == cid && v.visitorId == vid) ∘
      (fun v => if v.channelId == cid' && v.visitorId == vid' then
        { v with value := value } else v)) =
      fun v : Vote => v.channelId == cid && v.visitorId == vid := by
    funext v
    by_cases hv : v.channelId == cid' && v.visitorId == vid' <;> simp [Function.comp, hv]
  unfold findVote updateVoteValue
  rw [List.find?_map, hp]

lemma checkAutoBan_votes (db : DB) (now cid : Nat) :
    (checkAutoBan db now cid).votes = db.votes := by
  unfold checkAutoBan
  split
  · rfl
  · split <;> rfl

lemma checkAutoBan_eq {db : DB} {cid : Nat} {ch : Channel} (now : Nat)
    (h : findChannelById db cid = some ch) :
    checkAutoBan db now cid =
      if BAN_THRESHOLD_REPORTS ≤ ch.reportCount ∧ BAN_THRESHOLD_SCORE ≤ ch.score then
        updateChannelById db cid (fun c => { c with isBanned := true, updatedAt := now })
      else db := by
  unfold checkAutoBan
  rw [h]

lemma checkAutoBan_spec {db : DB} {cid : Nat} {ch : Channel} (now : Nat)
    (h : findChannelById db cid = some ch) :
    ∃ ch', findChannelById (checkAutoBan db now cid) cid = some ch' ∧
      ch'.isBanned = (ch.isBanned ||
        decide (BAN_THRESHOLD_REPORTS ≤ ch.reportCount ∧ BAN_THRESHOLD_SCORE ≤ ch.score)) ∧
      ch'.id = ch.id ∧ ch'.youtubeId = ch.youtubeId ∧ ch'.name = ch.name ∧
      ch'.reportCount = ch.reportCount ∧ ch'.score = ch.score := by
  rw [checkAutoBan_eq now h]
  by_cases hcond : BAN_THRESHOLD_REPORTS ≤ ch.reportCount ∧ BAN_THRESHOLD_SCORE ≤ ch.score
  · rw [if_pos hcond]
    refine ⟨{ ch with isBanned := true, updatedAt := now }, ?_, by simp [hcond], rfl, rfl,
      rfl, rfl, rfl⟩
    rw [findChannelById_updateChannelById db cid
      (fun c => { c with isBanned := true, updatedAt := now }) (fun c => rfl) cid, h]
    simp [id_of_findChannelById h]
  · rw [if_neg hcond]
    exact ⟨ch, h, by simp [hcond], rfl, rfl, rfl, rfl, rfl⟩

/-! ## Unfolding equations for the vote route -/

lemma voteTail_eq {db : DB} {cid : Nat} {ch : Channel} (now : Nat) {delta : Int}
    (h : findChannelById db cid = some ch) :
    voteTail db now cid delta =
      (VoteOutcome.ok ch.id (ch.score + delta) ch.isBanned,
        checkAutoBan
          (updateChannelById db cid (fun c => { c with score := c.score + delta, updatedAt := now }))
          now cid) := by
  have h1 : findChannelById
      (updateChannelById db cid (fun c => { c with score := c.score + delta, updatedAt := now }))
      cid = some { ch with score := ch.score + delta, updatedAt := now } := by
    rw [findChannelById_updateChannelById db cid
      (fun c => { c with score := c.score + delta, updatedAt := now }) (fun c => rfl) cid, h]
    simp [id_of_findChannelById h]
  unfold voteTail
  dsimp only
  rw [h1]

lemma castVote_change_eq {db : DB} {cid : Nat} {vid : String} {value : Int}
    {ch : Channel} {ev : Vote} (now : Nat)
    (hch : findChannelById db cid = some ch)
    (hev : findVote db cid vid = some ev)
    (hval : value = 1 ∨ value = -1)
    (hne : ¬ ev.value = value) :
    castVote db now cid vid value =
      (VoteOutcome.ok ch.id (ch.score + value * 2) ch.isBanned,
        checkAutoBan
          (updateChannelById (updateVoteValue db cid vid value) cid
            (fun c => { c with score := c.score + value * 2, updatedAt := now }))
          now cid) := by
  have hch' : findChannelById (updateVoteValue db cid vid value) cid = some ch := hch
  have e1 : castVote db now cid vid value =
      if ev.value = value then (VoteOutcome.duplicateVote, db)
      else voteTail (updateVoteValue db cid vid value) now cid (value * 2) := by
    unfold castVote
    rw [if_pos hval, hch, hev]
  rw [e1, if_neg hne, voteTail_eq now hch']

lemma castVote_create_eq {db : DB} {cid : Nat} {vid : String} {value : Int}
    {ch : Channel} (now : Nat)
    (hch : findChannelById db cid = some ch)
    (hev : findVote db cid vid = none)
    (hval : value = 1 ∨ value = -1) :
    castVote db now cid vid value =
      (VoteOutcome.ok ch.id (ch.score + value) ch.isBanned,
        checkAutoBan
          (updateChannelById { db with votes := db.votes ++ [⟨cid, vid, value⟩] } cid
            (fun c => { c with score := c.score + value, updatedAt := now }))
          now cid) := by
  have hch' : findChannelById { db with votes := db.votes ++ [⟨cid, vid, value⟩] } cid =
      some ch := hch
  have e1 : castVote db now cid vid value =
      voteTail { db with votes := db.votes ++ [⟨cid, vid, value⟩] } now cid value := by
    unfold castVote
    rw [if_pos hval, hch, hev]
  rw [e1, voteTail_eq now hch']

/-! ## Monotonicity of the ban flag on the automatic path -/

/-- The first `Channel` row carrying id `cid` exists and is banned. -/
def BannedAt (db : DB) (cid : Nat) : Prop :=
  ∃ ch, findChannelById db cid = some ch ∧ ch.isBanned = true

lemma bannedAt_congr_channels {db db' : DB} {cid : Nat}
    (h : BannedAt db cid) (hc : db'.channels = db.channels) : BannedAt db' cid := by
  obtain ⟨ch, h1, h2⟩ := h
  refine ⟨ch, ?_, h2⟩
  unfold findChannelById at h1 ⊢
  rw [hc]
  exact h1

lemma bannedAt_update {db : DB} {cid : Nat} (h : BannedAt db cid)
    (cid' : Nat) (f : Channel → Channel)
    (hfid : ∀ c, (f c).id = c.id)
    (hfban : ∀ c, c.isBanned = true → (f c).isBanned = true) :
    BannedAt (updateChannelById db cid' f) cid := by
  obtain ⟨ch, h1, h2⟩ := h
  refine ⟨if ch.id == cid' then f ch else ch, ?_, ?_⟩
  · rw [findChannelById_updateChannelById db cid' f hfid cid, h1]
    rfl
  · by_cases hc : ch.id == cid' <;> simp [hc, h2, hfban ch h2]

lemma bannedAt_append_channels {db db' : DB} {cid : Nat} (h : BannedAt db cid)
    (xs : List Channel) (hc : db'.channels = db.channels ++ xs) : BannedAt db' cid := by
  obtain ⟨ch, h1, h2⟩ := h
  refine ⟨ch, ?_, h2⟩
  unfold findChannelById at h1 ⊢
  rw [hc, List.find?_append, h1]
  rfl

lemma bannedAt_checkAutoBan {db : DB} {cid : Nat} (h : BannedAt db cid) (now cid' : Nat) :
    BannedAt (checkAutoBan db now cid') cid := by
  unfold checkAutoBan
  split
  · exact h
  · split
    · exact bannedAt_update h cid' _ (fun c => rfl) (fun c _ => rfl)
    · exact h

lemma bannedAt_voteTail {db : DB} {cid : Nat} (h : BannedAt db cid)
    (now cid' : Nat) (delta : Int) :
    BannedAt (voteTail db now cid' delta).2 cid := by
  have h1 : BannedAt
      (updateChannelById db cid' (fun c => { c with score := c.score + delta, updatedAt := now }))
      cid :=
    bannedAt_update h cid' _ (fun c => rfl) (fun c hb => hb)
  unfold voteTail
  dsimp only
  split
  · exact bannedAt_checkAutoBan h1 now cid'
  · exact h1

lemma bannedAt_reportTail {db : DB} {cid : Nat} (h : BannedAt db cid)
    (now cid' : Nat) (reason evidence visitorId : Option String) :
    BannedAt (reportTail db now cid' reason evidence visitorId).2 cid := by
  have h1 : BannedAt { db with reports := db.reports ++ [⟨cid', visitorId, reason, evidence⟩] } cid :=
    bannedAt_congr_channels h rfl
  unfold reportTail
  dsimp only
  split
  · exact bannedAt_checkAutoBan h1 now cid'
  · exact bannedAt_checkAutoBan h1 now cid'

lemma bannedAt_submitReport {db : DB} {cid : Nat} (h : BannedAt db cid)
    (now : Nat) (yid nm : String) (reason evidence visitorId : Option String) :
    BannedAt (submitReport db now yid nm reason evidence visitorId).2 cid := by
  unfold submitReport
  cases hy : findChannelByYoutubeId db yid with
  | some ch =>
    dsimp only
    have h1 : BannedAt (updateChannelById db ch.id (fun c =>
        { c with reportCount := c.reportCount + 1, score := c.score + 1,
                 name := nm, updatedAt := now })) cid :=
      bannedAt_update h ch.id _ (fun c => rfl) (fun c hb => hb)
    exact bannedAt_reportTail h1 now ch.id reason evidence visitorId
  | none =>
    dsimp only
    have h1 : BannedAt { db with
        channels := db.channels ++ [⟨db.nextId, yid, nm, 1, 1, false, now⟩],
        nextId := db.nextId + 1 } cid :=
      bannedAt_append_channels h _ rfl
    exact bannedAt_reportTail h1 now db.nextId reason evidence visitorId

lemma bannedAt_castVote {db : DB} {cid : Nat} (h : BannedAt db cid)
    (now cid' : Nat) (vid : String) (value : Int) :
    BannedAt (castVote db now cid' vid value).2 cid := by
  unfold castVote
  by_cases hval : value = 1 ∨ value = -1
  · rw [if_pos hval]
    cases hc : findChannelById db cid' with
    | none => exact h
    | some ch =>
      dsimp only
      cases hv : findVote db cid' vid with
      | some ev =>
        dsimp only
        by_cases he : ev.value = value
        · rw [if_pos he]
          exact h
        · rw [if_neg he]
          have h1 : BannedAt (updateVoteValue db cid' vid value) cid :=
            bannedAt_congr_channels h rfl
          exact bannedAt_voteTail h1 now cid' (value * 2)
      | none =>
        have h1 : BannedAt { db with votes := db.votes ++ [⟨cid', vid, value⟩] } cid :=
          bannedAt_congr_channels h rfl
        exact bannedAt_voteTail h1 now cid' value
  · rw [if_neg hval]
    exact h

/-! ## Shape of the store under report-only traffic -/

/-- The channel state reached by `k` reports on `yid` against an initially
empty store, the last one carrying name `nm` at instant `t`: both counters
equal `k`, and the ban latch is set exactly when `k` has reached the report
threshold (reports alone keep `score = reportCount`, so the score threshold
is implied). -/
def mkReportedChannel (yid nm : String) (k t : Nat) : Channel :=
  ⟨0, yid, nm, k, (k : Int), decide (5 ≤ k), t⟩

lemma reportTail_snd (db : DB) (now cid : Nat) (r e v : Option String) :
    (reportTail db now cid r e v).2 =
      checkAutoBan { db with reports := db.reports ++ [⟨cid, v, r, e⟩] } now cid := by
  unfold reportTail
  dsimp only
  split <;> rfl

lemma submitReport_single_channel (db : DB) (now : Nat) (yid nm nm' : String) (t k : Nat)
    (hch : db.channels = [mkReportedChannel yid nm k t]) :
    ((submitReport db now yid nm' none none none).2).channels =
      [mkReportedChannel yid nm' (k + 1) now] := by
  have hfind : findChannelByYoutubeId db yid = some (mkReportedChannel yid nm k t) := by
    unfold findChannelByYoutubeId
    rw [hch]
    simp [mkReportedChannel]
  unfold submitReport
  rw [hfind]
  dsimp only [mkReportedChannel]
  rw [reportTail_snd]
  have hch1 : (updateChannelById db 0 (fun c =>
      { c with reportCount := c.reportCount + 1, score := c.score + 1,
               name := nm', updatedAt := now })).channels =
      [⟨0, yid, nm', k + 1, (k : Int) + 1, decide (5 ≤ k), now⟩] := by
    simp only [updateChannelById]
    rw [hch]
    simp [mkReportedChannel]
  have hfind2 : findChannelById
      { updateChannelById db 0 (fun c =>
          { c with reportCount := c.reportCount + 1, score := c.score + 1,
                   name := nm', updatedAt := now }) with
        reports := (updateChannelById db 0 (fun c =>
          { c with reportCount := c.reportCount + 1, score := c.score + 1,
                   name := nm', updatedAt := now })).reports ++ [⟨0, none, none, none⟩] } 0 =
      some ⟨0, yid, nm', k + 1, (k : Int) + 1, decide (5 ≤ k), now⟩ := by
    unfold findChannelById
    show (updateChannelById db 0 _).channels.find? _ = _
    rw [hch1]
    simp
  rw [checkAutoBan_eq now hfind2]
  by_cases h5 : 5 ≤ k + 1
  · have hcond : BAN_THRESHOLD_REPORTS ≤
        (⟨0, yid, nm', k + 1, (k : Int) + 1, decide (5 ≤ k), now⟩ : Channel).reportCount ∧
        BAN_THRESHOLD_SCORE ≤
        (⟨0, yid, nm', k + 1, (k : Int) + 1, decide (5 ≤ k), now⟩ : Channel).score := by
      refine ⟨h5, ?_⟩
      show (3 : Int) ≤ (k : Int) + 1
      omega
    rw [if_pos hcond]
    simp only [updateChannelById]
    show ((updateChannelById db 0 _).channels.map _) = _
    rw [hch1]
    have hdec : decide (5 ≤ k + 1) = true := by simp [h5]
    simp [hdec]
    omega
  · have hcond : ¬ (BAN_THRESHOLD_REPORTS ≤
        (⟨0, yid, nm', k + 1, (k : Int) + 1, decide (5 ≤ k), now⟩ : Channel).reportCount ∧
        BAN_THRESHOLD_SCORE ≤
        (⟨0, yid, nm', k + 1, (k : Int) + 1, decide (5 ≤ k), now⟩ : Channel).score) :=
      fun hK => h5 hK.1
    rw [if_neg hcond]
    show (updateChannelById db 0 _).channels = _
    rw [hch1]
    have hdec : decide (5 ≤ k + 1) = false := by simp [h5]
    have hdec' : decide (5 ≤ k) = false := by
      have h5k : ¬ 5 ≤ k := by omega
      simp [h5k]
    simp [hdec, hdec']
    omega

lemma runReports_invariant (l : List (Nat × String)) :
    ∀ (db : DB) (yid nm : String) (k t : Nat),
    db.channels = [mkReportedChannel yid nm k t] →
    (runReports db yid l).channels =
      [mkReportedChannel yid (l.foldl (fun _ p => p.2) nm) (k + l.length)
        (l.foldl (fun _ p => p.1) t)] := by
  induction l with
  | nil =>
    intro db yid nm k t h
    simpa [runReports] using h
  | cons p rest ih =>
    intro db yid nm k t h
    have hstep := submitReport_single_channel db p.1 yid nm p.2 t k h
    have htail := ih ((submitReport db p.1 yid p.2 none none none).2) yid p.2 (k + 1) p.1 hstep
    have hrun : runReports db yid (p :: rest) =
        runReports ((submitReport db p.1 yid p.2 none none none).2) yid rest := rfl
    rw [hrun, htail]
    have hlen : k + 1 + rest.length = k + (p :: rest).length := by
      simp
      omega
    rw [hlen]
    rfl

lemma submitReport_emptyDB (now : Nat) (yid nm : String) :
    ((submitReport emptyDB now yid nm none none none).2).channels =
      [mkReportedChannel yid nm 1 now] := by
  rfl

lemma bannedAt_runOps {db : DB} {cid : Nat} (h : BannedAt db cid) (ops : List Op) :
    BannedAt (runOps db ops) cid := by
  induction ops generalizing db with
  | nil => exact h
  | cons op rest ih =>
    have h1 : BannedAt (applyOp db op) cid := by
      cases op with
      | report now yid nm r e v => exact bannedAt_submitReport h now yid nm r e v
      | vote now cid' vid value => exact bannedAt_castVote h now cid' vid value
    exact ih h1

/-! ## Further helpers for the vote and report routes -/

lemma findVote_congr_votes {db1 db2 : DB} (h : db1.votes = db2.votes) (cid : Nat) (vid : String) :
    findVote db1 cid vid = findVote db2 cid vid := by
  unfold findVote
  rw [h]

lemma castVote_dup_eq {db : DB} {cid : Nat} {vid : String} {value : Int}
    {ch : Channel} {ev : Vote} (now : Nat)
    (hch : findChannelById db cid = some ch)
    (hev : findVote db cid vid = some ev)
    (hval : value = 1 ∨ value = -1)
    (he : ev.value = value) :
    castVote db now cid vid value = (VoteOutcome.duplicateVote, db) := by
  unfold castVote
  rw [if_pos hval, hch, hev]
  exact if_pos he

lemma findChannelById_score_update {db : DB} {cid : Nat} {ch : Channel}
    (now : Nat) (delta : Int) (h : findChannelById db cid = some ch) :
    findChannelById
      (updateChannelById db cid (fun c => { c with score := c.score + delta, updatedAt := now }))
      cid = some { ch with score := ch.score + delta, updatedAt := now } := by
  rw [findChannelById_updateChannelById db cid
    (fun c => { c with score := c.score + delta, updatedAt := now }) (fun c => rfl) cid, h]
  simp [id_of_findChannelById h]

lemma castVote_ok_facts {db : DB} {now cid : Nat} {vid : String} {value : Int}
    {i : Nat} {s : Int} {b : Bool} {ch : Channel}
    (hch : findChannelById db cid = some ch)
    (hok : (castVote db now cid vid value).1 = VoteOutcome.ok i s b) :
    i = ch.id ∧ b = ch.isBanned ∧
    ∃ ch', findChannelById (castVote db now cid vid value).2 cid = some ch' ∧ ch'.score = s := by
  by_cases hval : value = 1 ∨ value = -1
  · cases hv : findVote db cid vid with
    | some ev =>
      by_cases he : ev.value = value
      · rw [castVote_dup_eq now hch hv hval he] at hok
        simp at hok
      · have heq := castVote_change_eq now hch hv hval he
        have hch2 : findChannelById (updateVoteValue db cid vid value) cid = some ch := hch
        have hup := findChannelById_score_update now (value * 2) hch2
        obtain ⟨ch', hfind', hban', _, _, _, _, hscore'⟩ := checkAutoBan_spec now hup
        rw [heq] at hok
        simp only [VoteOutcome.ok.injEq] at hok
        obtain ⟨hi, hs, hb⟩ := hok
        refine ⟨hi.symm, hb.symm, ch', ?_, ?_⟩
        · rw [heq]
          exact hfind'
        · rw [hscore', hs]
    | none =>
      have heq := castVote_create_eq now hch hv hval
      have hch2 : findChannelById { db with votes := db.votes ++ [⟨cid, vid, value⟩] } cid =
          some ch := hch
      have hup := findChannelById_score_update now value hch2
      obtain ⟨ch', hfind', hban', _, _, _, _, hscore'⟩ := checkAutoBan_spec now hup
      rw [heq] at hok
      simp only [VoteOutcome.ok.injEq] at hok
      obtain ⟨hi, hs, hb⟩ := hok
      refine ⟨hi.symm, hb.symm, ch', ?_, ?_⟩
      · rw [heq]
        exact hfind'
      · rw [hscore', hs]
  · unfold castVote at hok
    rw [if_neg hval] at hok
    simp at hok

lemma reportTail_resp {db : DB} {now cid : Nat} {r e v : Option String} {u : Channel}
    (h : findChannelById
      (checkAutoBan { db with reports := db.reports ++ [⟨cid, v, r, e⟩] } now cid) cid = some u) :
    reportTail db now cid r e v =
      (some ⟨u.youtubeId, u.name, u.reportCount, u.score, u.isBanned⟩,
        checkAutoBan { db with reports := db.reports ++ [⟨cid, v, r, e⟩] } now cid) := by
  unfold reportTail
  dsimp only
  rw [h]

lemma findChannelById_isSome_checkAutoBan {db : DB} (now cid cid' : Nat)
    (h : (findChannelById db cid).isSome) :
    (findChannelById (checkAutoBan db now cid') cid).isSome := by
  unfold checkAutoBan
  split
  · exact h
  · split
    · rw [findChannelById_updateChannelById db cid'
        (fun c => { c with isBanned := true, updatedAt := now }) (fun c => rfl) cid]
      simpa using h
    · exact h

/-! ## Concrete stores used to instantiate the theorems -/

/-- One never-banned channel with 5 reports and score 3 (at the threshold). -/
def dbFiveThree : DB := ⟨[⟨1, "b", "n", 5, 3, false, 0⟩], [], [], [], [], 2⟩

/-- One already-banned channel with 5 reports and score 3. -/
def dbBannedC2 : DB := ⟨[⟨0, "yt", "n", 5, 3, true, 0⟩], [], [], [], [], 1⟩

/-- One never-banned channel with 5 reports and score 2: one positive vote
away from the auto-ban threshold. -/
def dbOnBrink : DB := ⟨[⟨0, "yt", "n", 5, 2, false, 0⟩], [], [], [], [], 1⟩

/-- One channel plus an existing `+1` vote by visitor `v`. -/
def dbVoteCh : DB := ⟨[⟨0, "yt", "n", 1, 3, false, 0⟩], [⟨0, "v", 1⟩], [], [], [], 1⟩

/-- One banned channel whose `updatedAt` is 100. -/
def dbOneBanned : DB := ⟨[⟨0, "yt", "n", 6, 6, true, 100⟩], [], [], [], [], 1⟩

/-- `dbOneBanned` plus an extra unbanned channel (same banned rows). -/
def dbOneBannedPlus : DB :=
  ⟨[⟨0, "yt", "n", 6, 6, true, 100⟩, ⟨1, "z", "m", 1, 1, false, 999⟩], [], [], [], [], 2⟩

/-- One admin (password `pw`) with one live session token `t1`. -/
def dbAdmin : DB := ⟨[], [], [], [⟨"a", hashPassword "pw"⟩], [⟨"t1", "a", 100⟩], 0⟩

/-! ## Claim theorems -/

/-- C1: after every counter mutation the evaluator `checkAutoBan` leaves the
channel banned exactly when it was already banned or its counters satisfy
`reportCount ≥ 5 ∧ score ≥ 3`; it changes neither counter.  In particular a
never-banned channel with 5 reports becomes banned at score 5 or score 3 and
stays unbanned at score 2. -/
theorem autoBan_threshold_iff (db : DB) (now cid : Nat) (ch : Channel)
    (h : findChannelById db cid = some ch) :
    ∃ ch', findChannelById (checkAutoBan db now cid) cid = some ch' ∧
      ch'.isBanned = (ch.isBanned || decide (5 ≤ ch.reportCount ∧ (3 : Int) ≤ ch.score)) ∧
      ch'.reportCount = ch.reportCount ∧ ch'.score = ch.score := by
  obtain ⟨ch', h1, h2, _, _, _, h6, h7⟩ := checkAutoBan_spec now h
  exact ⟨ch', h1, by simpa [BAN_THRESHOLD_REPORTS, BAN_THRESHOLD_SCORE] using h2, h6, h7⟩

/-- Witness for C1: the evaluator run on a channel with 5 reports and score 3
(never banned) bans it. -/
theorem autoBan_threshold_iff_witness :
    ∃ ch', findChannelById (checkAutoBan dbFiveThree 9 1) 1 = some ch' ∧
      ch'.isBanned = (false || decide (5 ≤ 5 ∧ (3 : Int) ≤ 3)) ∧
      ch'.reportCount = 5 ∧ ch'.score = 3 :=
  autoBan_threshold_iff dbFiveThree 9 1 ⟨1, "b", "n", 5, 3, false, 0⟩ (by decide)

/-- C2: under any sequence of report submissions and votes, a channel whose
`isBanned` flag is set keeps it set — the automatic path never unbans. -/
theorem isBanned_monotonic_auto (ops : List Op) (db : DB) (cid : Nat) (ch : Channel)
    (h : findChannelById db cid = some ch) (hb : ch.isBanned = true) :
    ∃ ch', findChannelById (runOps db ops) cid = some ch' ∧ ch'.isBanned = true :=
  bannedAt_runOps ⟨ch, h, hb⟩ ops

/-- Witness for C2: a banned channel stays banned after two negative votes
drive its score from 3 down to 1, below the ban threshold. -/
theorem isBanned_monotonic_auto_witness :
    ∃ ch', findChannelById
        (runOps dbBannedC2 [Op.vote 1 0 "v1" (-1), Op.vote 2 0 "v2" (-1)]) 0 = some ch' ∧
      ch'.isBanned = true :=
  isBanned_monotonic_auto [Op.vote 1 0 "v1" (-1), Op.vote 2 0 "v2" (-1)] dbBannedC2 0
    ⟨0, "yt", "n", 5, 3, true, 0⟩ (by decide) (by decide)

/-- C4: starting from an empty store, any nonempty sequence of reports on one
`youtubeId` (and no votes) leaves that channel with `reportCount = N`,
`score = N`, the name of the last report, and the ban latch set exactly when
`N` reaches the threshold; the first report created the row with counters 1
and `isBanned = false`, and each further report incremented both counters by
one and refreshed the name. -/
theorem report_sequence_counts (yid : String) (l : List (Nat × String)) (t : Nat) (nm : String) :
    ∃ ch, findChannelByYoutubeId (runReports emptyDB yid (l ++ [(t, nm)])) yid = some ch ∧
      ch.reportCount = l.length + 1 ∧ ch.score = (l.length : Int) + 1 ∧
      ch.name = nm ∧ ch.isBanned = decide (5 ≤ l.length + 1) := by
  cases l with
  | nil =>
    have h1 : (runReports emptyDB yid [(t, nm)]).channels = [mkReportedChannel yid nm 1 t] := by
      have h0 := submitReport_emptyDB t yid nm
      simpa [runReports] using h0
    refine ⟨mkReportedChannel yid nm 1 t, ?_, rfl, by norm_num [mkReportedChannel], rfl, rfl⟩
    unfold findChannelByYoutubeId
    simp only [List.nil_append]
    rw [h1]
    simp [mkReportedChannel]
  | cons p rest =>
    have hbase : ((submitReport emptyDB p.1 yid p.2 none none none).2).channels =
        [mkReportedChannel yid p.2 1 p.1] := submitReport_emptyDB p.1 yid p.2
    have hrun : runReports emptyDB yid ((p :: rest) ++ [(t, nm)]) =
        runReports ((submitReport emptyDB p.1 yid p.2 none none none).2) yid
          (rest ++ [(t, nm)]) := rfl
    have hinv := runReports_invariant (rest ++ [(t, nm)])
      ((submitReport emptyDB p.1 yid p.2 none none none).2) yid p.2 1 p.1 hbase
    have hname : (rest ++ [(t, nm)]).foldl (fun _ q => q.2) p.2 = nm := by
      simp [List.foldl_append]
    have hlen : 1 + (rest ++ [(t, nm)]).length = (p :: rest).length + 1 := by
      simp
      omega
    rw [hname, hlen] at hinv
    rw [hrun]
    refine ⟨mkReportedChannel yid nm ((p :: rest).length + 1)
      ((rest ++ [(t, nm)]).foldl (fun _ q => q.1) p.1), ?_, rfl, ?_, rfl, rfl⟩
    · unfold findChannelByYoutubeId
      rw [hinv]
      simp [mkReportedChannel]
    · show (((p :: rest).length + 1 : Nat) : Int) = ((p :: rest).length : Int) + 1
      push_cast
      ring

/-- C5: a repeat vote with the identical value is rejected as a duplicate and
the store is returned unchanged — same score, same vote row, same ban state. -/
theorem duplicate_vote_no_mutation (db : DB) (now cid : Nat) (vid : String) (value : Int)
    (ch : Channel) (ev : Vote)
    (hch : findChannelById db cid = some ch)
    (hev : findVote db cid vid = some ev)
    (hval : value = 1 ∨ value = -1)
    (he : ev.value = value) :
    castVote db now cid vid value = (VoteOutcome.duplicateVote, db) :=
  castVote_dup_eq now hch hev hval he

/-- Witness for C5: repeating the `+1` vote on `dbVoteCh` is rejected and the
store is syntactically unchanged. -/
theorem duplicate_vote_no_mutation_witness :
    castVote dbVoteCh 5 0 "v" 1 = (VoteOutcome.duplicateVote, dbVoteCh) :=
  duplicate_vote_no_mutation dbVoteCh 5 0 "v" 1 ⟨0, "yt", "n", 1, 3, false, 0⟩ ⟨0, "v", 1⟩
    (by decide) (by decide) (by decide) (by decide)

/-- C7 counterexample: `GET /api/banlist` answers `version: Date.now()`, so
two calls at instants 1 and 2 over the very same store return different
versions although no banned channel changed, and the value differs from the
maximum `updatedAt` (100) of the banned channels. -/
theorem listBanned_version_counterexample :
    (listBanned dbOneBanned 1).version ≠ (listBanned dbOneBanned 2).version ∧
    (listBanned dbOneBanned 1).version ≠ banlistVersion dbOneBanned := by
  decide

/-- C7 (amended): `listBanned` itself returns the current wall-clock time as
`version`; it is the separate `GET /api/banlist/version` endpoint whose value
is derived from the maximum `updatedAt` among banned channels, so that two of
its calls between which no banned channel changed return the identical
value. -/
theorem version_endpoint_from_banned_updatedAt :
    (∀ (db : DB) (now : Nat), (listBanned db now).version = now) ∧
    (∀ db1 db2 : DB,
      db1.channels.filter (fun c => c.isBanned) = db2.channels.filter (fun c => c.isBanned) →
      banlistVersion db1 = banlistVersion db2) := by
  constructor
  · intro db now
    rfl
  · intro db1 db2 h
    unfold banlistVersion
    rw [h]

/-- Witness for C7 (amended): adding an unbanned channel leaves the version
endpoint's value unchanged. -/
theorem version_endpoint_from_banned_updatedAt_witness :
    banlistVersion dbOneBanned = banlistVersion dbOneBannedPlus :=
  version_endpoint_from_banned_updatedAt.2 dbOneBanned dbOneBannedPlus (by decide)

/-- C10: `getVote` is total and read-only: it never mutates the store, and it
answers `voted = false, value = 0` when no vote row exists for the pair (also
when the channel itself does not exist) and `voted = true` with the stored
value otherwise. -/
theorem getVote_total_no_writes (db : DB) (cid : Nat) (vid : String) :
    (getVote db cid vid).2 = db ∧
    (findVote db cid vid = none → (getVote db cid vid).1 = ⟨false, 0⟩) ∧
    (∀ v, findVote db cid vid = some v → (getVote db cid vid).1 = ⟨true, v.value⟩) := by
  unfold getVote
  cases h : findVote db cid vid with
  | none =>
    refine ⟨rfl, fun _ => rfl, fun v hv => ?_⟩
    exact absurd hv (by simp)
  | some v =>
    refine ⟨rfl, fun hnone => absurd hnone (by simp), fun w hw => ?_⟩
    have hvw : v = w := Option.some.inj hw
    subst hvw
    by_cases h0 : v.value = 0
    · simp [h0]
    · simp [h0]

/-- Witness for C10: reading a vote for a channel id that does not exist in
an empty store succeeds with `voted = false, value = 0`. -/
theorem getVote_total_no_writes_witness :
    (getVote emptyDB 0 "v").1 = ⟨false, 0⟩ :=
  (getVote_total_no_writes emptyDB 0 "v").2.1 (by decide)

/-- C3: a vote by a visitor holding the opposite vote updates the vote row in
place (same row count, new value) and moves the channel score by exactly
`value * 2`; consequently voting `+1` then `-1` leaves a net score
contribution of `-1` from that visitor. -/
theorem voteChange_in_place_delta_two :
    (∀ (db : DB) (now cid : Nat) (vid : String) (value : Int) (ch : Channel) (ev : Vote),
      findChannelById db cid = some ch →
      findVote db cid vid = some ev →
      (value = 1 ∨ value = -1) →
      ev.value ≠ value →
      ∃ db', castVote db now cid vid value =
          (VoteOutcome.ok ch.id (ch.score + value * 2) ch.isBanned, db') ∧
        findVote db' cid vid = some ⟨cid, vid, value⟩ ∧
        db'.votes.length = db.votes.length ∧
        ∃ ch', findChannelById db' cid = some ch' ∧ ch'.score = ch.score + value * 2) ∧
    (∀ (db : DB) (now1 now2 cid : Nat) (vid : String) (ch : Channel),
      findChannelById db cid = some ch →
      findVote db cid vid = none →
      ∃ ch', findChannelById
          ((castVote (castVote db now1 cid vid 1).2 now2 cid vid (-1)).2) cid = some ch' ∧
        ch'.score = ch.score - 1) := by
  constructor
  · intro db now cid vid value ch ev hch hev hval hne
    have heq := castVote_change_eq now hch hev hval hne
    have hch2 : findChannelById (updateVoteValue db cid vid value) cid = some ch := hch
    have hup := findChannelById_score_update now (value * 2) hch2
    refine ⟨(castVote db now cid vid value).2, ?_, ?_, ?_, ?_⟩
    · rw [heq]
    · rw [heq]
      have hv1 : (checkAutoBan
          (updateChannelById (updateVoteValue db cid vid value) cid
            (fun c => { c with score := c.score + value * 2, updatedAt := now }))
          now cid).votes = (updateVoteValue db cid vid value).votes := by
        rw [checkAutoBan_votes]
        rfl
      rw [findVote_congr_votes hv1 cid vid, findVote_updateVoteValue, hev]
      obtain ⟨hk1, hk2⟩ := keys_of_findVote hev
      simp [hk1, hk2]
    · rw [heq]
      show (checkAutoBan _ now cid).votes.length = db.votes.length
      rw [checkAutoBan_votes]
      show (updateVoteValue db cid vid value).votes.length = db.votes.length
      simp [updateVoteValue]
    · rw [heq]
      obtain ⟨ch', h1, _, _, _, _, _, h7⟩ := checkAutoBan_spec now hup
      exact ⟨ch', h1, by rw [h7]⟩
  · intro db now1 now2 cid vid ch hch hev
    have heq1 := castVote_create_eq now1 hch hev (Or.inl rfl)
    have hch2 : findChannelById ({ db with votes := db.votes ++ [⟨cid, vid, 1⟩] } : DB) cid =
        some ch := hch
    have hup1 := findChannelById_score_update now1 (1 : Int) hch2
    obtain ⟨chA, hA1, _, _, _, _, _, hA7⟩ := checkAutoBan_spec now1 hup1
    have eA : chA.score = ch.score + 1 := hA7
    have hAfv : findVote (checkAutoBan
        (updateChannelById ({ db with votes := db.votes ++ [⟨cid, vid, 1⟩] } : DB) cid
          (fun c => { c with score := c.score + 1, updatedAt := now1 }))
        now1 cid) cid vid = some ⟨cid, vid, 1⟩ := by
      unfold findVote
      rw [checkAutoBan_votes]
      show (db.votes ++ [(⟨cid, vid, 1⟩ : Vote)]).find? (fun v => v.channelId == cid && v.visitorId == vid) = some (⟨cid, vid, 1⟩ : Vote)
      rw [List.find?_append]
      have hnone : db.votes.find? (fun v => v.channelId == cid && v.visitorId == vid) = none :=
        hev
      rw [hnone]
      simp
    have hvalB : ((-1 : Int) = 1 ∨ (-1 : Int) = -1) := Or.inr rfl
    have hneB : ((⟨cid, vid, 1⟩ : Vote)).value ≠ (-1 : Int) := by
      show (1 : Int) ≠ -1
      decide
    have heq2 := castVote_change_eq now2 hA1 hAfv hvalB hneB
    have hchB : findChannelById (updateVoteValue (checkAutoBan
        (updateChannelById ({ db with votes := db.votes ++ [⟨cid, vid, 1⟩] } : DB) cid
          (fun c => { c with score := c.score + 1, updatedAt := now1 }))
        now1 cid) cid vid (-1)) cid = some chA := hA1
    have hupB := findChannelById_score_update now2 ((-1 : Int) * 2) hchB
    obtain ⟨chB, hB1, _, _, _, _, _, hB7⟩ := checkAutoBan_spec now2 hupB
    have eB : chB.score = chA.score + (-1) * 2 := hB7
    rw [heq1]
    rw [heq2]
    exact ⟨chB, hB1, by omega⟩

/-- Witness for C3: on `dbVoteCh` (existing `+1` vote, score 3) the visitor
changes the vote to `-1`: the row is updated in place and the score moves by
`-2` to 1. -/
theorem voteChange_in_place_delta_two_witness :
    ∃ db', castVote dbVoteCh 5 0 "v" (-1) =
        (VoteOutcome.ok 0 (3 + (-1) * 2) false, db') ∧
      findVote db' 0 "v" = some ⟨0, "v", -1⟩ ∧
      db'.votes.length = dbVoteCh.votes.length ∧
      ∃ ch', findChannelById db' 0 = some ch' ∧ ch'.score = 3 + (-1) * 2 :=
  voteChange_in_place_delta_two.1 dbVoteCh 5 0 "v" (-1) ⟨0, "yt", "n", 1, 3, false, 0⟩
    ⟨0, "v", 1⟩ (by decide) (by decide) (by decide) (by decide)

/-- C6 counterexample: on a channel with 5 reports and score 2, a `+1` vote
pushes the channel over the ban threshold — the store ends banned — but the
vote response reports `isBanned = false`, because it is built from the row as
read before the evaluator ran. -/
theorem vote_response_stale_ban_counterexample :
    (castVote dbOnBrink 7 0 "v" 1).1 = VoteOutcome.ok 0 3 false ∧
    (findChannelById (castVote dbOnBrink 7 0 "v" 1).2 0).map Channel.isBanned = some true := by
  decide

/-- C6 (amended): `submitReport` re-reads the channel after the evaluator, so
its response is the persisted post-evaluator state (both for an existing and
for a newly created channel); `castVote`'s response carries the post-mutation
score — which the evaluator never changes, so it matches the persisted
score — but its `isBanned` field is the channel's pre-call flag, read before
the evaluator ran. -/
theorem response_state_vs_evaluator :
    (∀ (db : DB) (now : Nat) (yid nm : String) (r e v : Option String) (ch : Channel),
      findChannelByYoutubeId db yid = some ch →
      ∃ u, findChannelById (submitReport db now yid nm r e v).2 ch.id = some u ∧
        (submitReport db now yid nm r e v).1 =
          some ⟨u.youtubeId, u.name, u.reportCount, u.score, u.isBanned⟩) ∧
    (∀ (db : DB) (now : Nat) (yid nm : String) (r e v : Option String),
      findChannelByYoutubeId db yid = none →
      ∃ u, findChannelById (submitReport db now yid nm r e v).2 db.nextId = some u ∧
        (submitReport db now yid nm r e v).1 =
          some ⟨u.youtubeId, u.name, u.reportCount, u.score, u.isBanned⟩) ∧
    (∀ (db : DB) (now cid : Nat) (vid : String) (value : Int) (ch : Channel)
        (i : Nat) (s : Int) (b : Bool),
      findChannelById db cid = some ch →
      (castVote db now cid vid value).1 = VoteOutcome.ok i s b →
      b = ch.isBanned ∧
        ∃ ch', findChannelById (castVote db now cid vid value).2 cid = some ch' ∧
          ch'.score = s) := by
  refine ⟨?_, ?_, ?_⟩
  · intro db now yid nm r e v ch hy
    unfold submitReport
    rw [hy]
    dsimp only
    have hsome0 : (findChannelById db ch.id).isSome := by
      unfold findChannelById
      rw [List.find?_isSome]
      exact ⟨ch, List.mem_of_find?_eq_some hy, by simp⟩
    have hsome1 : (findChannelById (updateChannelById db ch.id (fun c =>
        { c with reportCount := c.reportCount + 1, score := c.score + 1,
                 name := nm, updatedAt := now })) ch.id).isSome := by
      rw [findChannelById_updateChannelById db ch.id (fun c => { c with reportCount := c.reportCount + 1, score := c.score + 1, name := nm, updatedAt := now }) (fun c => rfl) ch.id]
      simpa using hsome0
    have hsome2 : (findChannelById
        ({ updateChannelById db ch.id (fun c =>
            { c with reportCount := c.reportCount + 1, score := c.score + 1,
                     name := nm, updatedAt := now }) with
          reports := (updateChannelById db ch.id (fun c =>
            { c with reportCount := c.reportCount + 1, score := c.score + 1,
                     name := nm, updatedAt := now })).reports ++ [⟨ch.id, v, r, e⟩] } : DB)
        ch.id).isSome := hsome1
    have hsome3 := findChannelById_isSome_checkAutoBan now ch.id ch.id hsome2
    obtain ⟨u, hu⟩ := Option.isSome_iff_exists.mp hsome3
    rw [reportTail_resp hu]
    exact ⟨u, hu, rfl⟩
  · intro db now yid nm r e v hy
    unfold submitReport
    rw [hy]
    dsimp only
    have hsome1 : (findChannelById ({ db with channels := db.channels ++ [⟨db.nextId, yid, nm, 1, 1, false, now⟩], nextId := db.nextId + 1 } : DB) db.nextId).isSome := by
      unfold findChannelById
      rw [List.find?_isSome]
      exact ⟨⟨db.nextId, yid, nm, 1, 1, false, now⟩, by simp, by simp⟩
    have hsome2 : (findChannelById ({ ({ db with channels := db.channels ++ [(⟨db.nextId, yid, nm, 1, 1, false, now⟩ : Channel)], nextId := db.nextId + 1 } : DB) with reports := ({ db with channels := db.channels ++ [(⟨db.nextId, yid, nm, 1, 1, false, now⟩ : Channel)], nextId := db.nextId + 1 } : DB).reports ++ [(⟨db.nextId, v, r, e⟩ : Report)] } : DB) db.nextId).isSome := hsome1
    have hsome3 := findChannelById_isSome_checkAutoBan now db.nextId db.nextId hsome2
    obtain ⟨u, hu⟩ := Option.isSome_iff_exists.mp hsome3
    rw [reportTail_resp hu]
    exact ⟨u, hu, rfl⟩
  · intro db now cid vid value ch i s b hch hok
    obtain ⟨_, hb, hpost⟩ := castVote_ok_facts hch hok
    exact ⟨hb, hpost⟩

/-- Witness for C6 (amended): on `dbOnBrink` the `+1` vote response carries
the pre-call ban flag `false` while the persisted score matches the returned
score 3. -/
theorem response_state_vs_evaluator_witness :
    false = (⟨0, "yt", "n", 5, 2, false, 0⟩ : Channel).isBanned ∧
    ∃ ch', findChannelById (castVote dbOnBrink 7 0 "v" 1).2 0 = some ch' ∧ ch'.score = 3 :=
  response_state_vs_evaluator.2.2 dbOnBrink 7 0 "v" 1 ⟨0, "yt", "n", 5, 2, false, 0⟩ 0 3 false
    (by decide) (by decide)

/-- C9: a successful `changePassword` deletes every session of that admin, so
verifying any token that belonged to the admin before the change (including
the one used to make it) fails as unauthenticated, at any later instant. -/
theorem changePassword_invalidates_sessions
    (db : DB) (now : Nat) (tok cur newPw : String) (db' : DB) (s0 : Session)
    (hfind : db.sessions.find? (fun s => s.token == tok) = some s0)
    (hnodup : (db.sessions.map Session.token).Nodup)
    (hcp : changePassword db now tok cur newPw = (CPOutcome.ok, db')) :
    (∀ x ∈ db'.sessions, x.username ≠ s0.username) ∧
    (∀ s ∈ db.sessions, s.username = s0.username →
      ∀ now2, (verifySession db' now2 s.token).1 = VerifyOutcome.unauthenticated) := by
  have e1 : verifySession db now tok =
      if s0.expiresAt < now then
        (VerifyOutcome.unauthenticated,
          { db with sessions := db.sessions.eraseP (fun x => x.token == tok) })
      else (VerifyOutcome.ok s0.username, db) := by
    unfold verifySession
    rw [hfind]
  by_cases hexp : s0.expiresAt < now
  · have e2 : changePassword db now tok cur newPw =
        (CPOutcome.unauthenticated,
          { db with sessions := db.sessions.eraseP (fun x => x.token == tok) }) := by
      unfold changePassword
      rw [e1, if_pos hexp]
    rw [e2] at hcp
    simp at hcp
  · have e2 : changePassword db now tok cur newPw =
        (match db.admins.find? (fun a => a.username == s0.username) with
         | none => (CPOutcome.adminNotFound, db)
         | some admin =>
           if verifyPassword cur admin.password then
             (CPOutcome.ok, { db with
               admins := db.admins.map (fun a =>
                 if a.username == s0.username then
                   { a with password := hashPassword newPw } else a),
               sessions := db.sessions.filter (fun s => !(s.username == s0.username)) })
           else (CPOutcome.invalidCredentials, db)) := by
      unfold changePassword
      rw [e1, if_neg hexp]
    cases ha : db.admins.find? (fun a => a.username == s0.username) with
    | none =>
      rw [ha] at e2
      have e3 : changePassword db now tok cur newPw = (CPOutcome.adminNotFound, db) := by
        rw [e2]
      rw [e3] at hcp
      simp at hcp
    | some admin =>
      rw [ha] at e2
      have e3 : changePassword db now tok cur newPw =
          (if verifyPassword cur admin.password then
            (CPOutcome.ok, { db with
              admins := db.admins.map (fun a =>
                if a.username == s0.username then
                  { a with password := hashPassword newPw } else a),
              sessions := db.sessions.filter (fun s => !(s.username == s0.username)) })
          else (CPOutcome.invalidCredentials, db)) := by
        rw [e2]
      by_cases hpw : verifyPassword cur admin.password
      · rw [if_pos hpw] at e3
        rw [e3] at hcp
        simp only [Prod.mk.injEq, true_and] at hcp
        subst hcp
        constructor
        · intro x hx
          have hx' : x ∈ db.sessions.filter (fun s => !(s.username == s0.username)) := hx
          rw [List.mem_filter] at hx'
          obtain ⟨_, hx2⟩ := hx'
          intro hxe
          rw [hxe] at hx2
          simp at hx2
        · intro s hs hsu now2
          have hnone : (db.sessions.filter
              (fun x => !(x.username == s0.username))).find?
              (fun x => x.token == s.token) = none := by
            rw [List.find?_eq_none]
            intro x hx
            rw [List.mem_filter] at hx
            obtain ⟨hx1, hx2⟩ := hx
            intro hteq
            have hxs : x = s :=
              List.inj_on_of_nodup_map hnodup hx1 hs (by simpa using hteq)
            rw [hxs, hsu] at hx2
            simp at hx2
          unfold verifySession
          rw [show ({ db with
              admins := db.admins.map (fun a =>
                if a.username == s0.username then
                  { a with password := hashPassword newPw } else a),
              sessions := db.sessions.filter (fun s => !(s.username == s0.username)) } :
              DB).sessions = db.sessions.filter (fun s => !(s.username == s0.username))
            from rfl, hnone]
      · rw [if_neg hpw] at e3
        rw [e3] at hcp
        simp at hcp

/-- Witness for C9: on `dbAdmin`, changing the password with the correct
current password succeeds, and the old token `t1` then fails verification. -/
theorem changePassword_invalidates_sessions_witness :
    (verifySession (changePassword dbAdmin 10 "t1" "pw" "newpassword").2 0 "t1").1 =
      VerifyOutcome.unauthenticated :=
  (changePassword_invalidates_sessions dbAdmin 10 "t1" "pw" "newpassword"
      (changePassword dbAdmin 10 "t1" "pw" "newpassword").2 ⟨"t1", "a", 100⟩
      (by decide) (by decide) (by decide)).2
    ⟨"t1", "a", 100⟩ (by decide) rfl 0

end DeadNetGuard
